import Mathlib

/-!
Shallow embedding of the statistics job in `1_data_analysis.py`: the five
survey/sensor analysis routines (socio-demographics, environmental
perception, symptom-by-floor matrix, condition-symptom Pearson
correlations, sensor min/max/mean summaries) and the sequential `__main__`
driver that runs them.

A pandas cell is modelled by `Val`: a numeric value (`num`), a textual
value (`str`), or a missing value (`missing`, pandas `NaN`). A dataframe
is a list of named columns; column lookup failure models `KeyError`.
Percentages are exact rationals (the Python floats carry the same values
on the inputs considered here).
-/

inductive Val where
  | num (q : ℚ)
  | str (s : String)
  | missing
deriving DecidableEq

def Val.isMissing : Val → Bool
  | .missing => true
  | _ => false

structure DataFrame where
  cols : List (String × List Val)
deriving DecidableEq

/-- Column access `df[name]`; an absent column raises `KeyError`. -/
def DataFrame.getCol (df : DataFrame) (name : String) : Except String (List Val) :=
  match df.cols.lookup name with
  | some c => Except.ok c
  | none => Except.error ("KeyError: " ++ name)

/-- Entries kept by pandas `dropna` (`value_counts` drops `NaN` by default). -/
def nonMissing (xs : List Val) : List Val := xs.filter (fun v => !v.isMissing)

/-- One entry of `value_counts(normalize=True) * 100`: the percentage share of
category `v` among the non-missing entries of the column. -/
def pct (xs : List Val) (v : Val) : ℚ :=
  100 * ((nonMissing xs).count v) / ((nonMissing xs).length)

/-- The whole percentage distribution of a column, one
(category, percentage) pair per observed non-missing value. -/
def distOf (xs : List Val) : List (Val × ℚ) :=
  (nonMissing xs).dedup.map (fun v => (v, pct xs v))

/-- Lines 18-22: the duration-bin remapping literal. It is defined in
`analyze_demographics` but never applied to any column. -/
def duration_mapping : List (String × String) :=
  [("1 - 2 hours", "< 2 Hours"), ("2 - 4 hours", "2 - 4 Hours"), ("> 4", "> 4 Hours")]

/-- Result of `analyze_demographics` (lines 10-30): three distributions are
computed (`status_counts`, `gender_counts`, `duration_dist`), but the
`print` calls at lines 27-29 emit only the first two. -/
structure Demographics where
  statusDist : List (Val × ℚ)
  genderDist : List (Val × ℚ)
  durationDist : List (Val × ℚ)
deriving DecidableEq

/-- Lines 10-30 of `1_data_analysis.py`. The duration column is read and its
raw `value_counts` distribution computed (line 25) without applying
`duration_mapping`. -/
def analyze_demographics (df : DataFrame) : Except String Demographics := do
  let status ← df.getCol "Status"
  let gender ← df.getCol "Gender"
  let dur ← df.getCol "Working Hours/ Study Hours"
  Except.ok ⟨distOf status, distOf gender, distOf dur⟩

/-- The tables actually printed by lines 27-29: status and gender only. -/
def printedDemographics (d : Demographics) : List (List (Val × ℚ)) :=
  [d.statusDist, d.genderDist]

/-- One row of Table 2 (lines 44-50): the three bucket percentages for a
stressor column, combining the numeric and textual encodings exactly as
`counts.get(1, 0) + counts.get('Yes', 0)` etc. do. -/
def perceptionRow (xs : List Val) : ℚ × ℚ × ℚ :=
  (pct xs (Val.num 1) + pct xs (Val.str "Yes"),
   pct xs (Val.num 2),
   pct xs (Val.num 0) + pct xs (Val.str "No"))

/-- Lines 32-54: Table 2, one row per stressor, in the fixed dict order. -/
def analyze_perception (df : DataFrame) : Except String (List (String × (ℚ × ℚ × ℚ))) := do
  let s1 ← df.getCol "Environment [Stuffy \"bad\" air]"
  let s2 ← df.getCol "Environment [Room temperature too high]"
  let s3 ← df.getCol "Environment [Noise]"
  Except.ok [("Stuffy Air", perceptionRow s1),
             ("High Temp", perceptionRow s2),
             ("Noise", perceptionRow s3)]

/-- One cell of Table 3 (line 65): within the rows whose floor value equals
`f`, the share (in percent) whose symptom value equals the numeric code 1.
`groupby` keeps rows with a missing symptom value inside the group, and
`(x == 1)` maps them to `False`, so they stay in the denominator. -/
def floorCell (floors syms : List Val) (f : Val) : ℚ :=
  let rows := (floors.zip syms).filter (fun p => p.1 == f)
  100 * (rows.countP (fun p => p.2 == Val.num 1)) / rows.length

/-- Group keys produced by `df.groupby('Floor')`: the observed non-missing
floor values (`groupby` drops `NaN` keys). -/
def observedFloors (floors : List Val) : List Val := (nonMissing floors).dedup

/-- One column of Table 3: the per-floor percentages for one symptom. -/
def symptomByFloor (floors syms : List Val) : List (Val × ℚ) :=
  (observedFloors floors).map (fun f => (f, floorCell floors syms f))

/-- Lines 56-69: Table 3, one entry per symptom column, fixed order. -/
def analyze_symptoms_matrix (df : DataFrame) :
    Except String (List (String × List (Val × ℚ))) := do
  let floor ← df.getCol "Floor"
  let y1 ← df.getCol "Symptoms [Fatigue]"
  let y2 ← df.getCol "Symptoms [Headache]"
  let y3 ← df.getCol "Symptoms [Difficulties concentrating]"
  Except.ok [("Symptoms [Fatigue]", symptomByFloor floor y1),
             ("Symptoms [Headache]", symptomByFloor floor y2),
             ("Symptoms [Difficulties concentrating]", symptomByFloor floor y3)]

/-- Pandas `Series.map({'Yes': 1, 'No': 0})` (line 95-96): a dict map sends
every value that is not a key of the dict — numbers included — to `NaN`. -/
def mapYesNo (v : Val) : Val :=
  match v with
  | .str s => if s = "Yes" then .num 1 else if s = "No" then .num 0 else .missing
  | _ => .missing

/-- Pandas `pd.to_numeric(·, errors='coerce')`: numbers pass through,
numeric strings parse, everything else becomes `NaN`. -/
def toNumericCoerce (v : Val) : Val :=
  match v with
  | .num q => .num q
  | .str s =>
    match s.toInt? with
    | some n => .num (n : ℚ)
    | none => .missing
  | .missing => .missing

/-- Pandas `.fillna(0)` on an all-numeric series, read off as a rational. -/
def fillna0 (v : Val) : ℚ :=
  match v with
  | .num q => q
  | _ => 0

/-- The full per-value conversion of line 95/96:
`pd.to_numeric(subset[col].map({'Yes': 1, 'No': 0}), errors='coerce').fillna(0)`. -/
def convertVal (v : Val) : ℚ := fillna0 (toNumericCoerce (mapYesNo v))

/-- Line 93 then 95-96: drop the rows of the pair where either value is
missing, then convert both remaining columns. -/
def cleanPair (xs ys : List Val) : List (ℚ × ℚ) :=
  ((xs.zip ys).filter (fun p => !(p.1.isMissing || p.2.isMissing))).map
    (fun p => (convertVal p.1, convertVal p.2))

/-- Outcome of `scipy.stats.pearsonr` as observable at line 98:
`lengthError` models the `ValueError` raised when the inputs have fewer
than 2 observations; `nanResult` models the `(nan, nan)` returned (with a
`ConstantInputWarning`) when either input is constant; `ok sxy sxx syy`
carries the centered sums, from which `r = sxy / sqrt (sxx * syy)`. -/
inductive PearsonResult where
  | lengthError
  | nanResult
  | ok (sxy sxx syy : ℚ)
deriving DecidableEq

/-- True when every entry of the list equals the first one (scipy's
`(x == x[0]).all()` constant-input test; an empty input never reaches it). -/
def isConstList (l : List ℚ) : Bool :=
  match l with
  | [] => true
  | x :: xs => xs.all (fun y => y == x)

/-- `scipy.stats.pearsonr` on paired rational sequences: length check first,
then the constant-input check, then the centered sums. -/
def pearson (l : List (ℚ × ℚ)) : PearsonResult :=
  if l.length < 2 then .lengthError
  else
    let xs := l.map Prod.fst
    let ys := l.map Prod.snd
    if isConstList xs || isConstList ys then .nanResult
    else
      let n : ℚ := l.length
      let mx := xs.sum / n
      let my := ys.sum / n
      .ok ((l.map (fun p => (p.1 - mx) * (p.2 - my))).sum)
          ((xs.map (fun x => (x - mx) ^ 2)).sum)
          ((ys.map (fun y => (y - my) ^ 2)).sum)

/-- Lines 93-98 for one (condition, symptom) pair. -/
def correlatePair (xs ys : List Val) : PearsonResult :=
  pearson (cleanPair xs ys)

/-- Line 99: `sig = "**" if p_val < 0.01 else "*" if p_val < 0.05 else ""`. -/
def sigMarker (p : ℚ) : String :=
  if p < 1/100 then "**" else if p < 5/100 then "*" else ""

def conditionCols : List String :=
  ["Condition [Do you have too much work to do?]",
   "Condition [Do you regard your work as interesting and stimulating?]",
   "Condition [Do you have any opportunity to influence your working conditions?]"]

def corrSymptomCols : List String :=
  ["Symptoms [Suffering from stress]",
   "Symptoms [Fatigue]",
   "Symptoms [Difficulties concentrating]"]

/-- Lines 71-101: Table 4. All nine pairs are computed; if any pair reaches
`pearsonr` with fewer than 2 cleaned observations the `ValueError`
escapes the routine (there is no handler in the source). -/
def analyze_correlations (df : DataFrame) :
    Except String (List (String × String × PearsonResult)) := do
  let c1 ← df.getCol "Condition [Do you have too much work to do?]"
  let c2 ← df.getCol "Condition [Do you regard your work as interesting and stimulating?]"
  let c3 ← df.getCol "Condition [Do you have any opportunity to influence your working conditions?]"
  let s1 ← df.getCol "Symptoms [Suffering from stress]"
  let s2 ← df.getCol "Symptoms [Fatigue]"
  let s3 ← df.getCol "Symptoms [Difficulties concentrating]"
  let conds := [("Condition [Do you have too much work to do?]", c1),
                ("Condition [Do you regard your work as interesting and stimulating?]", c2),
                ("Condition [Do you have any opportunity to influence your working conditions?]", c3)]
  let symps := [("Symptoms [Suffering from stress]", s1),
                ("Symptoms [Fatigue]", s2),
                ("Symptoms [Difficulties concentrating]", s3)]
  let cells := conds.flatMap (fun c => symps.map (fun s => (c.1, s.1, correlatePair c.2 s.2)))
  if cells.any (fun c => c.2.2 == PearsonResult.lengthError) then
    Except.error "ValueError: x and y must have length at least 2."
  else
    Except.ok cells

/-- The numeric entries of a sensor column (pandas `min`, `max`, `mean`
skip `NaN`). -/
def numsOf (xs : List Val) : List ℚ :=
  xs.filterMap (fun v => match v with | .num q => some q | _ => none)

def colMin (xs : List Val) : Option ℚ :=
  match numsOf xs with
  | [] => none
  | q :: qs => some (qs.foldl min q)

def colMax (xs : List Val) : Option ℚ :=
  match numsOf xs with
  | [] => none
  | q :: qs => some (qs.foldl max q)

def colMean (xs : List Val) : Option ℚ :=
  match numsOf xs with
  | [] => none
  | q :: qs => some ((q :: qs).sum / (q :: qs).length)

/-- The `[min, max, mean]` triple computed at lines 111-113 for one metric
(`none` models the `NaN` pandas returns on an all-missing column). -/
def sensorSummary (xs : List Val) : Option ℚ × Option ℚ × Option ℚ :=
  (colMin xs, colMax xs, colMean xs)

/-- Python negative positional access `df.iloc[:, -k]`: valid only when
`k ≤ ncols` (and `k > 0`); otherwise an `IndexError` is raised. -/
def ilocNegCol (df : DataFrame) (k : Nat) : Except String (List Val) :=
  if 0 < k ∧ k ≤ df.cols.length then
    match df.cols.get? (df.cols.length - k) with
    | some c => Except.ok c.2
    | none => Except.error "IndexError: single positional indexer is out-of-bounds"
  else Except.error "IndexError: single positional indexer is out-of-bounds"

/-- Lines 103-118: Table 5, the three metrics at fixed negative offsets. -/
def analyze_sensors (df : DataFrame) :
    Except String (List (String × (Option ℚ × Option ℚ × Option ℚ))) := do
  let co2 ← ilocNegCol df 4
  let pm ← ilocNegCol df 6
  let tvoc ← ilocNegCol df 2
  Except.ok [("CO2 (ppm)", sensorSummary co2),
             ("PM2.5 (ug/m3)", sensorSummary pm),
             ("TVOC (ppb)", sensorSummary tvoc)]

/-- One printed block of the statistics job, tagged by routine. -/
inductive Table where
  | demographics (printed : List (List (Val × ℚ)))
  | perception (rows : List (String × (ℚ × ℚ × ℚ)))
  | symptoms (m : List (String × List (Val × ℚ)))
  | correlations (cells : List (String × String × PearsonResult))
  | sensors (rows : List (String × (Option ℚ × Option ℚ × Option ℚ)))
deriving DecidableEq

def demographicsTable (df : DataFrame) : Except String Table :=
  (analyze_demographics df).map (fun d => Table.demographics (printedDemographics d))

def perceptionTable (df : DataFrame) : Except String Table :=
  (analyze_perception df).map Table.perception

def symptomsTable (df : DataFrame) : Except String Table :=
  (analyze_symptoms_matrix df).map Table.symptoms

def correlationsTable (df : DataFrame) : Except String Table :=
  (analyze_correlations df).map Table.correlations

def sensorsTable (df : DataFrame) : Except String Table :=
  (analyze_sensors df).map Table.sensors

/-- Sequential execution with no exception handler, as in `__main__`
(lines 121-134): the first uncaught error stops the whole job, and the
already-printed blocks are all the output there is. -/
def runSeq (rs : List (DataFrame → Except String Table)) (df : DataFrame) :
    List Table × Option String :=
  match rs with
  | [] => ([], none)
  | r :: rest =>
    match r df with
    | .error e => ([], some e)
    | .ok t =>
      let p := runSeq rest df
      (t :: p.1, p.2)

/-- The five routines in the order of lines 130-134. -/
def statsRoutines : List (DataFrame → Except String Table) :=
  [demographicsTable, perceptionTable, symptomsTable, correlationsTable, sensorsTable]

/-- The statistics job: the list of printed blocks, and the error that
stopped the job, if any. -/
def runAll (df : DataFrame) : List Table × Option String := runSeq statsRoutines df

/-- Cell semantics asserted by the specification (§4.3) for Table 3: rows
with a missing symptom value are excluded from both the numerator and the
denominator. Stated only for comparison against `floorCell`, which models
what the code computes. -/
def floorCellSpec (floors syms : List Val) (f : Val) : ℚ :=
  let rows := (floors.zip syms).filter (fun p => p.1 == f && !p.2.isMissing)
  100 * (rows.countP (fun p => p.2 == Val.num 1)) / rows.length

/-- Scenario D condition column: `["Yes","No","Yes","No"]`. -/
def scenarioD_conditions : List Val :=
  [Val.str "Yes", Val.str "No", Val.str "Yes", Val.str "No"]

/-- Scenario D symptom column: the already-numeric codes `[1,0,1,0]`. -/
def scenarioD_symptoms : List Val :=
  [Val.num 1, Val.num 0, Val.num 1, Val.num 0]

/-- Scenario C floor labels `[F1,F1,F2,F2]`. -/
def scenarioC_floors : List Val :=
  [Val.str "F1", Val.str "F1", Val.str "F2", Val.str "F2"]

/-- Scenario C symptom column `[1,0,1,1]`. -/
def scenarioC_symptom : List Val :=
  [Val.num 1, Val.num 0, Val.num 1, Val.num 1]

/-- Scenario B stressor column `[1,1,2,0]`. -/
def scenarioB_column : List Val :=
  [Val.num 1, Val.num 1, Val.num 2, Val.num 0]

/-- A two-respondent survey whose duration column holds the raw option
strings that `duration_mapping` is supposed to rebin. -/
def dfC3 : DataFrame :=
  ⟨[("Status", [Val.str "Student", Val.str "Student"]),
    ("Gender", [Val.str "F", Val.str "F"]),
    ("Working Hours/ Study Hours", [Val.str "1 - 2 hours", Val.str "> 4"])]⟩

/-- A survey that has every column `analyze_demographics` and
`analyze_symptoms_matrix` need, but none of the stressor columns that
`analyze_perception` needs. -/
def dfMissingStressor : DataFrame :=
  ⟨[("Status", [Val.str "A"]), ("Gender", [Val.str "M"]),
    ("Working Hours/ Study Hours", [Val.str "> 4"]),
    ("Floor", [Val.str "F1"]),
    ("Symptoms [Fatigue]", [Val.num 1]),
    ("Symptoms [Headache]", [Val.num 1]),
    ("Symptoms [Difficulties concentrating]", [Val.num 1])]⟩

theorem convertVal_eq_zero (v : Val) (hY : v ≠ Val.str "Yes") (hN : v ≠ Val.str "No") :
    convertVal v = 0 := by
  cases v with
  | num q => rfl
  | missing => rfl
  | str s =>
    have h1 : s ≠ "Yes" := fun h => hY (by rw [h])
    have h2 : s ≠ "No" := fun h => hN (by rw [h])
    simp [convertVal, mapYesNo, h1, h2, toNumericCoerce, fillna0]

theorem convertVal_zero_or_one (v : Val) : convertVal v = 0 ∨ convertVal v = 1 := by
  cases v with
  | num q => exact Or.inl rfl
  | missing => exact Or.inl rfl
  | str s =>
    by_cases h1 : s = "Yes"
    · subst h1; exact Or.inr rfl
    · by_cases h2 : s = "No"
      · subst h2; exact Or.inl rfl
      · exact Or.inl (convertVal_eq_zero _ (by simp [h1]) (by simp [h2]))

theorem cleanPair_mem (xs ys : List Val) (p : ℚ × ℚ) (hp : p ∈ cleanPair xs ys) :
    (p.1 = 0 ∨ p.1 = 1) ∧ (p.2 = 0 ∨ p.2 = 1) := by
  unfold cleanPair at hp
  rcases List.mem_map.mp hp with ⟨q, -, rfl⟩
  exact ⟨convertVal_zero_or_one q.1, convertVal_zero_or_one q.2⟩

theorem distOf_map_snd_sum (xs : List Val) (h : nonMissing xs ≠ []) :
    ((distOf xs).map Prod.snd).sum = 100 := by
  have hn : (0 : ℚ) < (nonMissing xs).length := by
    exact_mod_cast List.length_pos.mpr h
  have hne : ((nonMissing xs).length : ℚ) ≠ 0 := ne_of_gt hn
  have hfin : (nonMissing xs).dedup.toFinset = (nonMissing xs).toFinset := by
    ext a; simp [List.mem_toFinset, List.mem_dedup]
  have hkey : ((nonMissing xs).dedup.map fun v => (((nonMissing xs).count v : ℚ))).sum
      = ((nonMissing xs).length : ℚ) := by
    rw [← List.sum_toFinset (fun v => (((nonMissing xs).count v : ℚ))) (List.nodup_dedup _), hfin]
    rw [← Nat.cast_sum]
    exact_mod_cast congrArg (fun n : ℕ => (n : ℚ))
      (List.sum_toFinset_count_eq_length (nonMissing xs))
  unfold distOf pct
  rw [List.map_map]
  have heq : (Prod.snd ∘ fun v =>
        (v, 100 * (((nonMissing xs).count v : ℚ)) / (nonMissing xs).length))
      = fun v => (((nonMissing xs).count v : ℚ)) * (100 / (nonMissing xs).length) := by
    funext v; simp; ring
  rw [heq, List.sum_map_mul_right, hkey]
  field_simp

theorem count_five (m : List Val)
    (h : ∀ v ∈ m, v = Val.num 0 ∨ v = Val.num 1 ∨ v = Val.num 2 ∨
      v = Val.str "Yes" ∨ v = Val.str "No") :
    m.count (Val.num 1) + m.count (Val.str "Yes") + m.count (Val.num 2) +
      m.count (Val.num 0) + m.count (Val.str "No") = m.length := by
  induction m with
  | nil => simp
  | cons a t ih =>
    have ht := ih (fun v hv => h v (List.mem_cons_of_mem a hv))
    have ha := h a (List.mem_cons_self a t)
    rcases ha with h0 | h1 | h2 | hY | hN <;> subst_vars <;>
      simp [List.count_cons, beq_iff_eq] <;> omega

theorem perception_sum (xs : List Val)
    (hall : ∀ v ∈ nonMissing xs, v = Val.num 0 ∨ v = Val.num 1 ∨ v = Val.num 2 ∨
      v = Val.str "Yes" ∨ v = Val.str "No")
    (h : nonMissing xs ≠ []) :
    (perceptionRow xs).1 + (perceptionRow xs).2.1 + (perceptionRow xs).2.2 = 100 := by
  have hn : (0 : ℚ) < (nonMissing xs).length := by
    exact_mod_cast List.length_pos.mpr h
  have hne : ((nonMissing xs).length : ℚ) ≠ 0 := ne_of_gt hn
  have hc := count_five (nonMissing xs) hall
  have hcQ : (((nonMissing xs).count (Val.num 1) : ℚ))
      + ((nonMissing xs).count (Val.str "Yes") : ℚ)
      + ((nonMissing xs).count (Val.num 2) : ℚ)
      + ((nonMissing xs).count (Val.num 0) : ℚ)
      + ((nonMissing xs).count (Val.str "No") : ℚ)
      = ((nonMissing xs).length : ℚ) := by
    exact_mod_cast hc
  unfold perceptionRow pct
  field_simp
  linear_combination (100 : ℚ) * hcQ

theorem count_add_count (l : List Val) (a b : Val) (hab : a ≠ b) :
    l.countP (fun v => v == a || v == b) = l.count a + l.count b := by
  induction l with
  | nil => simp
  | cons c t ih =>
    by_cases h1 : c = a
    · subst h1
      simp [List.countP_cons, List.count_cons, beq_iff_eq, hab, ih, Ne.symm hab]
      omega
    · by_cases h2 : c = b
      · subst h2
        simp [List.countP_cons, List.count_cons, beq_iff_eq, h1, ih]
        omega
      · simp [List.countP_cons, List.count_cons, beq_iff_eq, h1, h2, ih]

theorem perception_shares (xs : List Val) :
    (perceptionRow xs).1 = 100 * (((nonMissing xs).countP
        (fun v => v == Val.num 1 || v == Val.str "Yes") : ℚ)) / (nonMissing xs).length ∧
    (perceptionRow xs).2.1
      = 100 * (((nonMissing xs).count (Val.num 2) : ℚ)) / (nonMissing xs).length ∧
    (perceptionRow xs).2.2 = 100 * (((nonMissing xs).countP
        (fun v => v == Val.num 0 || v == Val.str "No") : ℚ)) / (nonMissing xs).length := by
  refine ⟨?_, rfl, ?_⟩
  · unfold perceptionRow pct
    rw [count_add_count _ _ _ (by decide)]
    push_cast
    ring
  · unfold perceptionRow pct
    rw [count_add_count _ _ _ (by decide)]
    push_cast
    ring

theorem foldl_min_le_self (qs : List ℚ) (q : ℚ) : qs.foldl min q ≤ q := by
  induction qs generalizing q with
  | nil => simp
  | cons a t ih => exact le_trans (ih (min q a)) (min_le_left q a)

theorem foldl_min_le (qs : List ℚ) (q : ℚ) : ∀ x ∈ q :: qs, qs.foldl min q ≤ x := by
  induction qs generalizing q with
  | nil => intro x hx; simp at hx; simp [hx]
  | cons a t ih =>
    intro x hx
    rcases List.mem_cons.mp hx with rfl | hx'
    · exact le_trans (foldl_min_le_self t (min x a)) (min_le_left x a)
    · rcases List.mem_cons.mp hx' with rfl | hx''
      · exact le_trans (foldl_min_le_self t (min q x)) (min_le_right q x)
      · exact ih (min q a) x (List.mem_cons_of_mem _ hx'')

theorem le_foldl_max_self (qs : List ℚ) (q : ℚ) : q ≤ qs.foldl max q := by
  induction qs generalizing q with
  | nil => simp
  | cons a t ih => exact le_trans (le_max_left q a) (ih (max q a))

theorem le_foldl_max (qs : List ℚ) (q : ℚ) : ∀ x ∈ q :: qs, x ≤ qs.foldl max q := by
  induction qs generalizing q with
  | nil => intro x hx; simp at hx; simp [hx]
  | cons a t ih =>
    intro x hx
    rcases List.mem_cons.mp hx with rfl | hx'
    · exact le_trans (le_max_left x a) (le_foldl_max_self t (max x a))
    · rcases List.mem_cons.mp hx' with rfl | hx''
      · exact le_trans (le_max_right q x) (le_foldl_max_self t (max q x))
      · exact ih (max q a) x (List.mem_cons_of_mem _ hx'')

/-- C1 counterexample: the claim says values that are already numeric pass
through the conversion unchanged and that scenario D yields r = 1.00. In
the code, `map({'Yes':1,'No':0})` sends the numeric code 1 to `NaN` and
`fillna(0)` turns it into 0, so the scenario D symptom column converts to
the constant sequence `[0,0,0,0]` and `pearsonr` returns `nan`, not 1. -/
theorem correlation_numeric_passthrough_counterexample :
    convertVal (Val.num 1) = 0 ∧ convertVal (Val.num 1) ≠ 1 ∧
    correlatePair scenarioD_conditions scenarioD_symptoms = PearsonResult.nanResult := by
  refine ⟨rfl, ?_, by decide⟩
  intro h
  rw [show convertVal (Val.num 1) = 0 from rfl] at h
  exact absurd h (by norm_num)

/-- C1 (amended): the conversion maps the exact strings "Yes" to 1 and "No"
to 0, and every other value — numeric values included — to 0; on scenario D
(conditions `["Yes","No","Yes","No"]`, symptoms `[1,0,1,0]`) the converted
symptom sequence is constant, so the Pearson result is `nan` (undefined),
not r = 1.00. -/
theorem correlation_conversion_amended :
    convertVal (Val.str "Yes") = 1 ∧ convertVal (Val.str "No") = 0 ∧
    (∀ v : Val, v ≠ Val.str "Yes" → v ≠ Val.str "No" → convertVal v = 0) ∧
    correlatePair scenarioD_conditions scenarioD_symptoms = PearsonResult.nanResult :=
  ⟨rfl, rfl, convertVal_eq_zero, by decide⟩

/-- C1 witness: the third conjunct applied to the numeric code 2. -/
theorem correlation_conversion_amended_witness : convertVal (Val.num 2) = 0 :=
  correlation_conversion_amended.2.2.1 (Val.num 2) (by decide) (by decide)

/-- C2 counterexample: a pair whose cleaned input has a single observation
does not get a distinct "undefined" report; `pearsonr` raises a
`ValueError` (modelled by `lengthError`), which no caller catches. -/
theorem correlation_degenerate_counterexample :
    correlatePair [Val.num 1] [Val.num 1] = PearsonResult.lengthError := by decide

/-- C2 (amended): with fewer than 2 cleaned observations the routine raises
(the `ValueError` of `pearsonr` propagates); with at least 2 observations
and zero variance (a constant sequence) it returns `nan` for r rather than
raising. -/
theorem correlation_degenerate_amended (xs ys : List Val) :
    ((cleanPair xs ys).length < 2 → correlatePair xs ys = PearsonResult.lengthError) ∧
    (2 ≤ (cleanPair xs ys).length →
      (isConstList ((cleanPair xs ys).map Prod.fst) = true ∨
       isConstList ((cleanPair xs ys).map Prod.snd) = true) →
      correlatePair xs ys = PearsonResult.nanResult) := by
  constructor
  · intro h
    unfold correlatePair pearson
    rw [if_pos h]
  · intro h hc
    unfold correlatePair pearson
    rw [if_neg (by omega)]
    have hcond : (isConstList ((cleanPair xs ys).map Prod.fst) ||
        isConstList ((cleanPair xs ys).map Prod.snd)) = true := by
      rcases hc with h' | h' <;> simp [h']
    simp only [hcond, if_true]

/-- C2 witness: both branches of the amended claim at concrete inputs. -/
theorem correlation_degenerate_amended_witness :
    correlatePair [Val.str "No"] [Val.num 0] = PearsonResult.lengthError ∧
    correlatePair [Val.str "Yes", Val.str "Yes"] [Val.num 1, Val.num 0]
      = PearsonResult.nanResult :=
  ⟨(correlation_degenerate_amended [Val.str "No"] [Val.num 0]).1 (by decide),
   (correlation_degenerate_amended [Val.str "Yes", Val.str "Yes"] [Val.num 1, Val.num 0]).2
     (by decide) (Or.inl (by decide))⟩

/-- C3 (code bug): on a survey whose duration column holds the raw option
strings, `analyze_demographics` computes the duration distribution over
the raw labels — `duration_mapping` does map them to the canonical bins,
but is never applied — and the printed output contains only the status and
gender tables, not the duration distribution. -/
theorem duration_remap_unused_bug :
    analyze_demographics dfC3 = Except.ok
      ⟨[(Val.str "Student", 100)], [(Val.str "F", 100)],
       [(Val.str "1 - 2 hours", 50), (Val.str "> 4", 50)]⟩ ∧
    duration_mapping.lookup "1 - 2 hours" = some "< 2 Hours" ∧
    duration_mapping.lookup "> 4" = some "> 4 Hours" ∧
    printedDemographics
      ⟨[(Val.str "Student", 100)], [(Val.str "F", 100)],
       [(Val.str "1 - 2 hours", 50), (Val.str "> 4", 50)]⟩
      = [[(Val.str "Student", 100)], [(Val.str "F", 100)]] := by
  refine ⟨?_, by decide, by decide, rfl⟩
  simp [analyze_demographics, dfC3, DataFrame.getCol, List.lookup, distOf, pct, nonMissing,
    Val.isMissing, List.count_cons, List.count_nil, beq_iff_eq, List.dedup_cons_of_mem,
    List.dedup_cons_of_not_mem, bind, Except.bind]
  norm_num

/-- C4 counterexample: the claim asserts 50% for floor F2 in scenario C,
but the F2 group is `[1,1]`, giving 100%; and rows with a missing symptom
value are not excluded from the denominator: the code gives 50% on the
group `[1, NaN]` where the claimed exclusion semantics gives 100%. -/
theorem symptom_matrix_counterexample :
    floorCell scenarioC_floors scenarioC_symptom (Val.str "F2") = 100 ∧
    floorCell [Val.str "F1", Val.str "F1"] [Val.num 1, Val.missing] (Val.str "F1") = 50 ∧
    floorCellSpec [Val.str "F1", Val.str "F1"] [Val.num 1, Val.missing] (Val.str "F1") = 100 := by
  refine ⟨?_, ?_, ?_⟩ <;>
    simp [floorCell, floorCellSpec, scenarioC_floors, scenarioC_symptom, Val.isMissing,
      List.countP_cons, List.countP_nil, List.filter_cons, List.filter_nil, beq_iff_eq] <;>
    norm_num

/-- C4 (amended): each cell is the share of rows of the floor group whose
symptom equals the present code 1, with rows with a missing floor excluded
(they belong to no group) but rows with a missing symptom kept in the
denominator; the two semantics agree on cells whose group has no missing
symptom value. Scenario C yields F1 = 50%, F2 = 100%. -/
theorem symptom_matrix_amended :
    symptomByFloor scenarioC_floors scenarioC_symptom
      = [(Val.str "F1", 50), (Val.str "F2", 100)] ∧
    (∀ floors syms : List Val, ∀ f : Val,
      ((floors.zip syms).filter (fun p => p.1 == f)).all (fun p => !p.2.isMissing) = true →
      floorCell floors syms f = floorCellSpec floors syms f) := by
  constructor
  · simp [symptomByFloor, observedFloors, nonMissing, Val.isMissing, scenarioC_floors,
      scenarioC_symptom, floorCell, List.countP_cons, List.countP_nil, List.filter_cons,
      List.filter_nil, beq_iff_eq, List.dedup_cons_of_mem, List.dedup_cons_of_not_mem]
    norm_num
  · intro floors syms f h
    unfold floorCell floorCellSpec
    have hrows : (floors.zip syms).filter (fun p => p.1 == f && !p.2.isMissing)
        = (floors.zip syms).filter (fun p => p.1 == f) := by
      rw [← List.filter_filter, List.filter_comm]
      exact List.filter_eq_self.mpr (List.all_eq_true.mp h)
    rw [hrows]

/-- C4 witness: the agreement part of the amended claim on a one-row group
with no missing symptom value. -/
theorem symptom_matrix_amended_witness :
    floorCell [Val.str "F1"] [Val.num 1] (Val.str "F1")
      = floorCellSpec [Val.str "F1"] [Val.num 1] (Val.str "F1") :=
  symptom_matrix_amended.2 [Val.str "F1"] [Val.num 1] (Val.str "F1") (by decide)

/-- C5: every distribution produced by `value_counts(normalize=True) * 100`
(the status and gender tables of `analyze_demographics`) sums to 100 over
the observed categories, and the three perception buckets sum to 100
whenever every non-missing response uses one of the five encodings the
buckets cover (0, 1, 2, "Yes", "No") — those are the non-excluded
categories. -/
theorem distribution_sums_to_100 :
    (∀ xs : List Val, nonMissing xs ≠ [] → ((distOf xs).map Prod.snd).sum = 100) ∧
    (∀ xs : List Val,
      (∀ v ∈ nonMissing xs, v = Val.num 0 ∨ v = Val.num 1 ∨ v = Val.num 2 ∨
        v = Val.str "Yes" ∨ v = Val.str "No") →
      nonMissing xs ≠ [] →
      (perceptionRow xs).1 + (perceptionRow xs).2.1 + (perceptionRow xs).2.2 = 100) :=
  ⟨distOf_map_snd_sum, perception_sum⟩

/-- C5 witness: scenario A status column and scenario B stressor column. -/
theorem distribution_sums_to_100_witness :
    ((distOf [Val.str "A", Val.str "B", Val.str "A"]).map Prod.snd).sum = 100 ∧
    (perceptionRow scenarioB_column).1 + (perceptionRow scenarioB_column).2.1
      + (perceptionRow scenarioB_column).2.2 = 100 :=
  ⟨distribution_sums_to_100.1 [Val.str "A", Val.str "B", Val.str "A"] (by decide),
   distribution_sums_to_100.2 scenarioB_column (by decide) (by decide)⟩

/-- C6: the marker of line 99 is "**" (strong) exactly when p < 0.01, "*"
(weak) exactly when 0.01 ≤ p < 0.05, and absent exactly when p ≥ 0.05; in
particular at p = 0.01 the marker is "*" and at p = 0.05 it is absent. -/
theorem significance_marker_boundaries (p : ℚ) :
    (sigMarker p = "**" ↔ p < 1/100) ∧
    (sigMarker p = "*" ↔ 1/100 ≤ p ∧ p < 5/100) ∧
    (sigMarker p = "" ↔ 5/100 ≤ p) := by
  unfold sigMarker
  by_cases h1 : p < 1/100
  · rw [if_pos h1]
    refine ⟨⟨fun _ => h1, fun _ => rfl⟩, ?_, ?_⟩
    · constructor
      · intro hs; exact absurd hs (by decide)
      · rintro ⟨hge, -⟩; exact absurd h1 (not_lt.mpr hge)
    · constructor
      · intro hs; exact absurd hs (by decide)
      · intro hge; exfalso; linarith
  · rw [if_neg h1]
    by_cases h2 : p < 5/100
    · rw [if_pos h2]
      refine ⟨?_, ⟨fun _ => ⟨not_lt.mp h1, h2⟩, fun _ => rfl⟩, ?_⟩
      · constructor
        · intro hs; exact absurd hs (by decide)
        · intro hlt; exact absurd hlt h1
      · constructor
        · intro hs; exact absurd hs (by decide)
        · intro hge; exfalso; linarith
    · rw [if_neg h2]
      refine ⟨?_, ?_, ⟨fun _ => not_lt.mp h2, fun _ => rfl⟩⟩
      · constructor
        · intro hs; exact absurd hs (by decide)
        · intro hlt; exact absurd hlt h1
      · constructor
        · intro hs; exact absurd hs (by decide)
        · rintro ⟨-, hlt⟩; exact absurd hlt h2

/-- C6 witness: the boundary values 0.01 and 0.05 exactly, plus one value
below 0.01. -/
theorem significance_marker_boundaries_witness :
    sigMarker (1/100) = "*" ∧ sigMarker (5/100) = "" ∧ sigMarker (1/200) = "**" :=
  ⟨(significance_marker_boundaries (1/100)).2.1.mpr ⟨le_refl _, by norm_num⟩,
   (significance_marker_boundaries (5/100)).2.2.mpr (le_refl _),
   (significance_marker_boundaries (1/200)).1.mpr (by norm_num)⟩

/-- C7 counterexample: on `dfMissingStressor` the symptom-matrix routine
succeeds when run on its own, yet after `analyze_perception` fails on its
missing column the job prints only the demographics block — the remaining
routines never run, so the failure is not confined to the one routine. -/
theorem missing_column_counterexample :
    (symptomsTable dfMissingStressor).isOk = true ∧
    (runAll dfMissingStressor).1.length = 1 ∧
    (runAll dfMissingStressor).2 = some "KeyError: Environment [Stuffy \"bad\" air]" := by
  refine ⟨rfl, rfl, rfl⟩

/-- C7 (amended): the `__main__` driver has no exception handling, so when
`analyze_demographics` succeeds and `analyze_perception` raises, the job
stops there: the output is exactly the demographics block and the error,
and the three later routines never run. -/
theorem missing_column_amended (df : DataFrame) (t : Table) (e : String)
    (h1 : demographicsTable df = Except.ok t) (h2 : perceptionTable df = Except.error e) :
    runAll df = ([t], some e) := by
  simp [runAll, statsRoutines, runSeq, h1, h2]

/-- C7 witness: the amended claim at `dfMissingStressor`. -/
theorem missing_column_amended_witness :
    runAll dfMissingStressor
      = ([Table.demographics [[(Val.str "A", 100)], [(Val.str "M", 100)]]],
         some "KeyError: Environment [Stuffy \"bad\" air]") := by
  apply missing_column_amended
  · simp [demographicsTable, analyze_demographics, dfMissingStressor, DataFrame.getCol,
      List.lookup, distOf, pct, nonMissing, Val.isMissing, List.count_cons, List.count_nil,
      beq_iff_eq, bind, Except.bind, printedDemographics, Except.map]
  · simp [perceptionTable, analyze_perception, dfMissingStressor, DataFrame.getCol,
      List.lookup, bind, Except.bind, Except.map]

/-- C8: each perception bucket is the combined share, over the non-missing
responses, of the encodings it covers — often/always counts 1 or "Yes",
sometimes counts 2, rarely/never counts 0 or "No" — and scenario B
(`[1,1,2,0]`) yields 50% / 25% / 25%. -/
theorem perception_buckets_encoding :
    (∀ xs : List Val,
      (perceptionRow xs).1 = 100 * (((nonMissing xs).countP
          (fun v => v == Val.num 1 || v == Val.str "Yes") : ℚ)) / (nonMissing xs).length ∧
      (perceptionRow xs).2.1
        = 100 * (((nonMissing xs).count (Val.num 2) : ℚ)) / (nonMissing xs).length ∧
      (perceptionRow xs).2.2 = 100 * (((nonMissing xs).countP
          (fun v => v == Val.num 0 || v == Val.str "No") : ℚ)) / (nonMissing xs).length) ∧
    perceptionRow scenarioB_column = (50, 25, 25) := by
  refine ⟨perception_shares, ?_⟩
  simp [perceptionRow, pct, nonMissing, Val.isMissing, scenarioB_column,
    List.count_cons, List.count_nil, beq_iff_eq]
  norm_num

/-- C9: for any sensor column with at least one non-missing value, the
summary of lines 111-113 is `(min, max, mean)` over the non-missing
values, and min ≤ mean ≤ max; with exactly one non-missing data point all
three coincide. -/
theorem sensor_min_mean_max (xs : List Val) (h : numsOf xs ≠ []) :
    ∃ mn mx av, sensorSummary xs = (some mn, some mx, some av) ∧
      mn ≤ av ∧ av ≤ mx ∧ ((numsOf xs).length = 1 → mn = av ∧ av = mx) := by
  rcases hl : numsOf xs with _ | ⟨q, qs⟩
  · exact absurd hl h
  have hlen : (0 : ℚ) < ((q :: qs).length : ℚ) := by
    have : (0 : ℚ) ≤ (qs.length : ℚ) := by exact_mod_cast Nat.zero_le _
    simp
    linarith
  refine ⟨qs.foldl min q, qs.foldl max q, (q :: qs).sum / (q :: qs).length, ?_, ?_, ?_, ?_⟩
  · simp [sensorSummary, colMin, colMax, colMean, hl]
  · rw [le_div_iff₀ hlen]
    have := List.card_nsmul_le_sum (q :: qs) (qs.foldl min q) (foldl_min_le qs q)
    rw [nsmul_eq_mul] at this
    linarith
  · rw [div_le_iff₀ hlen]
    have := List.sum_le_card_nsmul (q :: qs) (qs.foldl max q) (le_foldl_max qs q)
    rw [nsmul_eq_mul] at this
    linarith
  · intro hone
    have hqs : qs = [] := by
      simp at hone
      exact hone
    subst hqs
    norm_num

/-- C9 witness: scenario E's CO2-like column and a one-point column. -/
theorem sensor_min_mean_max_witness :
    (∃ mn mx av, sensorSummary [Val.num 400, Val.num 420, Val.num 1500]
        = (some mn, some mx, some av) ∧ mn ≤ av ∧ av ≤ mx ∧
        ((numsOf [Val.num 400, Val.num 420, Val.num 1500]).length = 1 →
          mn = av ∧ av = mx)) ∧
    (∃ mn mx av, sensorSummary [Val.num 400]
        = (some mn, some mx, some av) ∧ mn ≤ av ∧ av ≤ mx ∧
        ((numsOf [Val.num 400]).length = 1 → mn = av ∧ av = mx)) :=
  ⟨sensor_min_mean_max [Val.num 400, Val.num 420, Val.num 1500] (by decide),
   sensor_min_mean_max [Val.num 400] (by decide)⟩

/-- C10: after the per-pair dropping and conversion, every element of both
sequences handed to `pearsonr` is 0 or 1, and every source value other
than the exact strings "Yes" and "No" — numeric codes included — converts
to 0. -/
theorem conversion_binary_invariant :
    (∀ xs ys : List Val, ∀ p : ℚ × ℚ, p ∈ cleanPair xs ys →
      (p.1 = 0 ∨ p.1 = 1) ∧ (p.2 = 0 ∨ p.2 = 1)) ∧
    (∀ v : Val, v ≠ Val.str "Yes" → v ≠ Val.str "No" → convertVal v = 0) ∧
    (∀ q : ℚ, convertVal (Val.num q) = 0) :=
  ⟨cleanPair_mem, convertVal_eq_zero, fun _ => rfl⟩

/-- C10 witness: the pair produced from `(7, "Yes")` and the conversion of
a missing value. -/
theorem conversion_binary_invariant_witness :
    ((((0 : ℚ), (1 : ℚ)).1 = 0 ∨ (((0 : ℚ), (1 : ℚ))).1 = 1) ∧
      ((((0 : ℚ), (1 : ℚ))).2 = 0 ∨ (((0 : ℚ), (1 : ℚ))).2 = 1)) ∧
    convertVal Val.missing = 0 :=
  ⟨conversion_binary_invariant.1 [Val.num 7] [Val.str "Yes"] ((0 : ℚ), (1 : ℚ)) (by decide),
   conversion_binary_invariant.2.1 Val.missing (by decide) (by decide)⟩
